import Mathlib

/-!
Verification development for the runway-generator repository.

The embedding below translates the session-transport layer of
`src/server.ts` (the Express `/mcp` route with its session registry) and
the tool handlers of `src/src/runwayTools.ts` into Lean definitions, and
proves the specified properties about them.

JavaScript strings are modelled as Lean `String`; the handful of
JavaScript string methods the source uses (`includes`, `trim`, `split`,
`padStart`) are re-implemented below over `List Char` so that they are
kernel-computable.
-/

namespace RunwayGen

/-- JavaScript `String.prototype.startsWith` over character lists:
`startsWithChars s pat` is true when `pat` is an initial segment of `s`. -/
def startsWithChars : List Char → List Char → Bool
  | _, [] => true
  | [], _ :: _ => false
  | c :: cs, p :: ps => c == p && startsWithChars cs ps

/-- JavaScript `String.prototype.includes` over character lists:
true when `pat` occurs contiguously inside `s`. -/
def includesChars : List Char → List Char → Bool
  | [], pat => pat.isEmpty
  | c :: cs, pat => startsWithChars (c :: cs) pat || includesChars cs pat

/-- JavaScript `s.includes(pat)` on strings. -/
def jsIncludes (s pat : String) : Bool :=
  includesChars s.data pat.data

/-- JavaScript `String.prototype.trim`: strip whitespace from both ends. -/
def jsTrim (s : String) : String :=
  String.mk (((s.data.dropWhile Char.isWhitespace).reverse.dropWhile
    Char.isWhitespace).reverse)

/-- JavaScript `s.split(sep)` for a one-character separator, over the
character list of `s`. -/
def splitChars (sep : Char) : List Char → List (List Char)
  | [] => [[]]
  | c :: cs =>
    match splitChars sep cs with
    | [] => if c == sep then [[], []] else [[c]]
    | r :: rs => if c == sep then [] :: r :: rs else (c :: r) :: rs

/-- JavaScript `s.split(sep)` on strings. -/
def jsSplit (s : String) (sep : Char) : List String :=
  (splitChars sep s.data).map String.mk

/-- JavaScript `v || dflt` for an environment variable that may be unset
(`none`) or set to a string; the empty string is falsy. -/
def jsOr (v : Option String) (dflt : String) : String :=
  match v with
  | none => dflt
  | some s => if s == "" then dflt else s

/-- The JSON-RPC error object the server puts in its error responses
(`code` and `message`; the optional `data` field carrying `err.message`
is not modelled). -/
structure JsonRpcError where
  code : Int
  message : String
  deriving Repr, DecidableEq

/-- What the `catch` block at the end of the `/mcp` route does
(`src/server.ts`, the `catch (err)` branch), as a function of
`res.headersSent`.  `terminateConnection` is the action the specification
describes for the already-streaming case; it is listed so that statements
can refer to it, and no branch of the code produces it. -/
inductive CatchAction where
  | respond (httpStatus : Nat) (err : JsonRpcError)
  | noWrite
  | terminateConnection
  deriving Repr, DecidableEq

/-- The `catch` block of the `/mcp` route: if no part of the response has
been sent, respond with an HTTP 500 JSON-RPC internal-error envelope
(code -32603, message "Internal server error"); otherwise do nothing. -/
def catchBlock (headersSent : Bool) : CatchAction :=
  if headersSent then CatchAction.noWrite
  else CatchAction.respond 500 { code := -32603, message := "Internal server error" }

/-- The session registry `sessions` of `src/server.ts`: the record values
(`McpServer` and transport instances) are opaque to every property proved
here, so the registry is modelled by the list of registered session
identifiers. -/
abbrev Registry := List String

/-- JavaScript property assignment `sessions[sid] = record`: ensure the
identifier is a key of the registry. -/
def Registry.insert (st : Registry) (sid : String) : Registry :=
  if st.contains sid then st else sid :: st

/-- JavaScript `delete sessions[sid]`: remove the identifier. -/
def Registry.remove (st : Registry) (sid : String) : Registry :=
  st.erase sid

/-- One inbound HTTP request to the `/mcp` route, with the fields the
route reads.  `accept` is `req.headers.accept || ""`; `sessionHeader` is
`req.headers["mcp-session-id"] || ""`; `bodyIsObject` and
`bodyIsInitialize` describe the parsed JSON body (`typeof req.body ===
"object" && req.body` and the SDK predicate `isInitializeRequest`); the
`host` and `origin` headers are carried so that statements about the
allow-list guard can quantify over them. -/
structure Request where
  method : String
  accept : String
  sessionHeader : String
  bodyIsObject : Bool
  bodyIsInitialize : Bool
  host : String
  origin : Option String
  deriving Repr, DecidableEq

/-- The `isInit` predicate computed at the top of the `/mcp` route:
`req.method === "POST" && typeof req.body === "object" && req.body &&
isInitializeRequest(req.body)`. -/
def isInitRequest (req : Request) : Bool :=
  req.method == "POST" && req.bodyIsObject && req.bodyIsInitialize

/-- Outcome of one `/mcp` request, as seen by the client.
`notAcceptable` is the HTTP 406 response with JSON-RPC error code -32000;
`ok echoed` means the request was dispatched to
`transport.handleRequest`, with `echoed = some sid` when the
`Mcp-Session-Id` response header was set to `sid`;
`errorCaught a` means the route handler threw and the outer `catch` ran,
performing `a`;
`unknownSession` is a dedicated "Unknown Session" / "Session Not Found"
response — the route has no branch that produces it, it is listed so that
statements can refer to it. -/
inductive McpOutcome where
  | notAcceptable
  | ok (echoedSessionId : Option String)
  | errorCaught (action : CatchAction)
  | unknownSession
  deriving Repr, DecidableEq

/-- The HTTP status the outcome carries, when the route itself fixes one
(the SDK transport chooses the status of dispatched requests). -/
def McpOutcome.httpStatus : McpOutcome → Option Nat
  | .notAcceptable => some 406
  | .ok _ => none
  | .errorCaught (.respond s _) => some s
  | .errorCaught _ => none
  | .unknownSession => some 404

/-- Result of one `/mcp` request: the registry afterwards, the outcome,
and the close observer this request registered (`res.on("close", ...)`):
`some sid` when the handler registered an observer that tears down
session `sid` when this response's connection closes, `none` when it
registered no observer. -/
structure McpResult where
  registry : Registry
  outcome : McpOutcome
  closeHandler : Option String
  deriving Repr, DecidableEq

/-- The `/mcp` route handler of `src/server.ts`, one request at a time.
`st` is the registry before the request and `freshId` the value
`randomUUID()` returns if it is called.  Follows the source line by line:
content negotiation first (reject 406 unless the `Accept` header
includes both `application/json` and `text/event-stream`); then, when the
session header is empty or the body is an initialization request, mint
`freshId`, echo it in the `Mcp-Session-Id` header, register a close
observer for it and insert it into the registry; dispatch via the
registry entry — on a continuation request whose identifier is not
registered, `sessions[sessionId]` is `undefined` and destructuring it
throws a `TypeError`, which the outer `catch` turns into the
`catchBlock false` response; finally, on `DELETE`, close the session and
remove the registry entry. -/
def handleMcp (st : Registry) (freshId : String) (req : Request) : McpResult :=
  if !(jsIncludes req.accept "application/json") ||
      !(jsIncludes req.accept "text/event-stream") then
    { registry := st, outcome := McpOutcome.notAcceptable, closeHandler := none }
  else
    let isInit := isInitRequest req
    if req.sessionHeader == "" || isInit then
      let sessionId := freshId
      let st1 := Registry.insert st sessionId
      if req.method == "DELETE" then
        { registry := Registry.remove st1 sessionId
          outcome := McpOutcome.ok (some sessionId)
          closeHandler := some sessionId }
      else
        { registry := st1
          outcome := McpOutcome.ok (some sessionId)
          closeHandler := some sessionId }
    else
      if st.contains req.sessionHeader then
        if req.method == "DELETE" then
          { registry := Registry.remove st req.sessionHeader
            outcome := McpOutcome.ok none
            closeHandler := none }
        else
          { registry := st
            outcome := McpOutcome.ok none
            closeHandler := none }
      else
        { registry := st
          outcome := McpOutcome.errorCaught (catchBlock false)
          closeHandler := none }

/-- Firing the close observer of a response after its connection closes:
the observer registered by the `/mcp` route closes the transport and the
server and deletes the registry entry, so on the registry it removes the
identifier it was registered for; responses with no observer leave the
registry unchanged. -/
def fireClose (st : Registry) (observer : Option String) : Registry :=
  match observer with
  | none => st
  | some sid => Registry.remove st sid

/-- The configuration object passed to `new StreamableHTTPServerTransport`
in `src/server.ts` (the `sessionIdGenerator` closure is not modelled). -/
structure TransportConfig where
  enableDnsRebindingProtection : Bool
  allowedHosts : List String
  allowedOrigins : List String
  deriving Repr, DecidableEq

/-- The transport configuration built at session creation, from the
`ALLOWED_HOSTS` and `ALLOWED_ORIGINS` environment variables (`none` when
unset): rebinding protection is set to `false`, and both allow-lists are
the comma-split, trimmed environment values with their source defaults. -/
def mkTransportConfig (allowedHostsEnv allowedOriginsEnv : Option String) :
    TransportConfig :=
  { enableDnsRebindingProtection := false
    allowedHosts :=
      (jsSplit (jsOr allowedHostsEnv
        "127.0.0.1,localhost,runway-generator-liard.vercel.app") ',').map jsTrim
    allowedOrigins := (jsSplit (jsOr allowedOriginsEnv "*") ',').map jsTrim }

/-- Modelled from the MCP SDK dependency
(`StreamableHTTPServerTransport.validateRequestHeaders`): the `Host` and
`Origin` headers are checked against `allowedHosts` / `allowedOrigins`
only when `enableDnsRebindingProtection` is `true`; with the flag
`false` every request passes unvalidated. -/
def transportAcceptsRequest (cfg : TransportConfig) (host : String)
    (origin : Option String) : Bool :=
  if cfg.enableDnsRebindingProtection then
    (if cfg.allowedHosts.isEmpty then true else cfg.allowedHosts.contains host) &&
    (if cfg.allowedOrigins.isEmpty then true
     else match origin with
       | none => true
       | some o => cfg.allowedOrigins.contains o)
  else true

/-- JavaScript `s.padStart(targetLength, pad)` for a one-character pad
string: left-pad with `pad` up to `targetLength` characters. -/
def padStart (s : String) (targetLength : Nat) (pad : Char) : String :=
  String.mk (List.replicate (targetLength - s.data.length) pad ++ s.data)

/-- The JSON values the tool handlers build and pass to `JSON.stringify`
(only the constructors the source needs). -/
inductive Json where
  | str (s : String)
  | arr (elems : List Json)
  | obj (fields : List (String × Json))
  deriving Repr

/-- The string carried by a `text` content item: `stringified j` stands
for `JSON.stringify(j, null, 2)` (the serializer itself is not
modelled), `raw s` is the literal string `s`. -/
inductive TextPayload where
  | stringified (j : Json)
  | raw (s : String)
  deriving Repr

/-- One entry of a tool result's `content` array. -/
inductive ContentItem where
  | text (payload : TextPayload)
  | resource_link (resource : String) (name : String)
  deriving Repr

/-- Whether a content item is a `resource_link` entry. -/
def ContentItem.isResourceLink : ContentItem → Bool
  | .resource_link _ _ => true
  | .text _ => false

/-- A tool handler's return value.  The JavaScript success results carry
no `isError` field; that is modelled as `isError := false`. -/
structure ToolResult where
  content : List ContentItem
  isError : Bool
  deriving Repr

/-- The `toResourceLinks` helper of `src/src/runwayTools.ts`:
`urls.map((u, i) => ...)` producing a `resource_link` item per URL, named
`output_` followed by `String(i + 1).padStart(2, "0")`. -/
def toResourceLinks (urls : List String) : List ContentItem :=
  urls.enum.map (fun p =>
    ContentItem.resource_link p.2 ("output_" ++ padStart (toString (p.1 + 1)) 2 '0'))

/-- A task object resolved by a `create` call of the Runway SDK (only the
`id` field is read). -/
structure Task where
  id : String
  deriving Repr

/-- A task result resolved by `waitForTaskOutput`.  `output` is
`some urls` when `result.output` is an array of URLs and `none` when it
is absent or not an array (the source guards with `Array.isArray`). -/
structure TaskResult where
  id : String
  status : String
  output : Option (List String)
  deriving Repr

/-- A JavaScript error caught by a tool handler: the Runway SDK's
`TaskFailedError` (carrying `taskDetails`), or any other error (carrying
`message`). -/
inductive JsError where
  | taskFailed (taskDetails : Json)
  | other (message : String)
  deriving Repr

/-- The outcome of awaiting a JavaScript promise. -/
inductive Awaited (α : Type) where
  | ok (value : α)
  | threw (e : JsError)
  deriving Repr

/-- The `catch (err)` block that the three generation tool handlers of
`src/src/runwayTools.ts` share verbatim: a `TaskFailedError` becomes a
stringified error object with `isError: true`; any other error becomes
the text `"Error: " + err.message`, also with `isError: true`. -/
def toolCatch (e : JsError) : ToolResult :=
  match e with
  | .taskFailed details =>
    { content := [ContentItem.text (TextPayload.stringified
        (Json.obj [("error", Json.str "TaskFailed"), ("details", details)]))]
      isError := true }
  | .other msg =>
    { content := [ContentItem.text (TextPayload.raw ("Error: " ++ msg))]
      isError := true }

/-- Arguments of the `runway.text_to_image` tool. -/
structure TextToImageArgs where
  promptText : String
  model : String
  ratio : Option String
  seed : Option Int
  wait : Bool
  timeoutMs : Option Int
  deriving Repr

/-- Arguments of the `runway.image_to_video` tool. -/
structure ImageToVideoArgs where
  promptImage : String
  promptText : String
  model : String
  ratio : Option String
  wait : Bool
  timeoutMs : Option Int
  deriving Repr

/-- Arguments of the `runway.video_upscale` tool. -/
structure VideoUpscaleArgs where
  video : String
  model : String
  wait : Bool
  timeoutMs : Option Int
  deriving Repr

/-- The `runway.text_to_image` handler of `src/src/runwayTools.ts`.
`create` is the outcome of `runway.textToImage.create(...)` and `waited`
the outcome of `createPromise.waitForTaskOutput(...)` (awaited only when
`wait` is true; a rejected create call surfaces through whichever of the
two is awaited, so a rejected `create` is caught on both paths).  With
`wait` false it returns one stringified `taskId` / `"PENDING"` text item;
with `wait` true and an empty (or non-array) output it returns one
stringified summary with an empty `output` array; otherwise it returns
the resource links followed by the stringified summary. -/
def text_to_image_handler (args : TextToImageArgs) (create : Awaited Task)
    (waited : Awaited TaskResult) : ToolResult :=
  match create with
  | .threw e => toolCatch e
  | .ok task =>
    if !args.wait then
      { content := [ContentItem.text (TextPayload.stringified
          (Json.obj [("taskId", Json.str task.id), ("status", Json.str "PENDING")]))]
        isError := false }
    else
      match waited with
      | .threw e => toolCatch e
      | .ok result =>
        let outputs := result.output.getD []
        if outputs.isEmpty then
          { content := [ContentItem.text (TextPayload.stringified
              (Json.obj [("taskId", Json.str result.id),
                ("status", Json.str result.status), ("output", Json.arr [])]))]
            isError := false }
        else
          { content := toResourceLinks outputs ++
              [ContentItem.text (TextPayload.stringified
                (Json.obj [("taskId", Json.str result.id),
                  ("status", Json.str result.status),
                  ("output", Json.arr (outputs.map Json.str))]))]
            isError := false }

/-- The `runway.image_to_video` handler of `src/src/runwayTools.ts`:
same shape as `text_to_image_handler`, without the special branch for an
empty output list. -/
def image_to_video_handler (args : ImageToVideoArgs) (create : Awaited Task)
    (waited : Awaited TaskResult) : ToolResult :=
  match create with
  | .threw e => toolCatch e
  | .ok task =>
    if !args.wait then
      { content := [ContentItem.text (TextPayload.stringified
          (Json.obj [("taskId", Json.str task.id), ("status", Json.str "PENDING")]))]
        isError := false }
    else
      match waited with
      | .threw e => toolCatch e
      | .ok result =>
        let outputs := result.output.getD []
        { content := toResourceLinks outputs ++
            [ContentItem.text (TextPayload.stringified
              (Json.obj [("taskId", Json.str result.id),
                ("status", Json.str result.status),
                ("output", Json.arr (outputs.map Json.str))]))]
          isError := false }

/-- The `runway.video_upscale` handler of `src/src/runwayTools.ts`: same
shape as `image_to_video_handler`. -/
def video_upscale_handler (args : VideoUpscaleArgs) (create : Awaited Task)
    (waited : Awaited TaskResult) : ToolResult :=
  match create with
  | .threw e => toolCatch e
  | .ok task =>
    if !args.wait then
      { content := [ContentItem.text (TextPayload.stringified
          (Json.obj [("taskId", Json.str task.id), ("status", Json.str "PENDING")]))]
        isError := false }
    else
      match waited with
      | .threw e => toolCatch e
      | .ok result =>
        let outputs := result.output.getD []
        { content := toResourceLinks outputs ++
            [ContentItem.text (TextPayload.stringified
              (Json.obj [("taskId", Json.str result.id),
                ("status", Json.str result.status),
                ("output", Json.arr (outputs.map Json.str))]))]
          isError := false }

/-! ## Theorems -/

/-- A continuation request carrying the unknown identifier `sess-b` while
only `sess-a` is registered: the probe input for claim C1. -/
def c1Req : Request :=
  { method := "POST", accept := "application/json, text/event-stream"
    sessionHeader := "sess-b", bodyIsObject := true, bodyIsInitialize := false
    host := "localhost", origin := none }

/-- C1, counterexample: on a continuation request bearing an identifier
that was never issued, the router does not produce the "Unknown Session"
/ "Session Not Found" response the claim describes; it produces the
caught-exception HTTP 500 internal-error envelope (destructuring the
missing registry entry throws a `TypeError` that the outer catch turns
into `catchBlock false`). -/
theorem c1_counterexample :
    (handleMcp ["sess-a"] "fresh-1" c1Req).outcome ≠ McpOutcome.unknownSession ∧
    (handleMcp ["sess-a"] "fresh-1" c1Req).outcome
      = McpOutcome.errorCaught (catchBlock false) := by
  decide

/-- C1 (amended): for every continuation request (not an initialization
handshake) carrying a session identifier that is not registered, the
router rejects the request — with the caught-exception HTTP 500
internal-error envelope, not a dedicated "Unknown Session" response —
performs no mutation of the session registry, never creates a session
under that identifier, and registers no close observer. -/
theorem c1_unknown_continuation (st : Registry) (freshId : String) (req : Request)
    (ha : jsIncludes req.accept "application/json" = true)
    (hb : jsIncludes req.accept "text/event-stream" = true)
    (hs : req.sessionHeader ≠ "")
    (hinit : isInitRequest req = false)
    (hmem : req.sessionHeader ∉ st) :
    (handleMcp st freshId req).outcome
      = McpOutcome.errorCaught (CatchAction.respond 500
          { code := -32603, message := "Internal server error" }) ∧
    (handleMcp st freshId req).registry = st ∧
    req.sessionHeader ∉ (handleMcp st freshId req).registry := by
  unfold handleMcp
  simp [ha, hb, hs, hinit, hmem, catchBlock]

/-- C1, witness: the amended statement evaluated on the concrete probe
input. -/
theorem c1_unknown_continuation_witness :
    (handleMcp ["sess-a"] "fresh-1" c1Req).outcome
      = McpOutcome.errorCaught (CatchAction.respond 500
          { code := -32603, message := "Internal server error" }) ∧
    (handleMcp ["sess-a"] "fresh-1" c1Req).registry = ["sess-a"] ∧
    c1Req.sessionHeader ∉ (handleMcp ["sess-a"] "fresh-1" c1Req).registry :=
  c1_unknown_continuation ["sess-a"] "fresh-1" c1Req (by decide) (by decide)
    (by decide) (by decide) (by decide)

/-- C2: a valid initialization handshake that passes content negotiation
and is handed a fresh identifier inserts exactly one new session record
under that identifier, echoes it in the `Mcp-Session-Id` response header,
and a subsequent continuation request bearing that identifier resolves to
the record and succeeds, leaving the registry unchanged.  (`randomUUID`
is modelled by the `freshId` oracle argument; its distinctness from every
registered identifier is the `hfresh` hypothesis.) -/
theorem c2_handshake_creates_session (st : Registry) (freshId freshId2 : String)
    (req contReq : Request)
    (ha : jsIncludes req.accept "application/json" = true)
    (hb : jsIncludes req.accept "text/event-stream" = true)
    (hinit : isInitRequest req = true)
    (hfresh : freshId ∉ st)
    (hne : freshId ≠ "")
    (hca : jsIncludes contReq.accept "application/json" = true)
    (hcb : jsIncludes contReq.accept "text/event-stream" = true)
    (hcs : contReq.sessionHeader = freshId)
    (hcinit : isInitRequest contReq = false)
    (hcmeth : contReq.method ≠ "DELETE") :
    (handleMcp st freshId req).registry = freshId :: st ∧
    (handleMcp st freshId req).outcome = McpOutcome.ok (some freshId) ∧
    (handleMcp (freshId :: st) freshId2 contReq).outcome = McpOutcome.ok none ∧
    (handleMcp (freshId :: st) freshId2 contReq).registry = freshId :: st := by
  have hpost : req.method = "POST" := by
    unfold isInitRequest at hinit
    exact eq_of_beq (Bool.and_eq_true_iff.mp
      (Bool.and_eq_true_iff.mp hinit).1).1
  refine ⟨?_, ?_, ?_, ?_⟩
  · unfold handleMcp
    simp [ha, hb, hinit, hpost, Registry.insert, hfresh]
  · unfold handleMcp
    simp [ha, hb, hinit, hpost]
  · unfold handleMcp
    simp [hca, hcb, hcinit, hcs, hne, hcmeth]
  · unfold handleMcp
    simp [hca, hcb, hcinit, hcs, hne, hcmeth]

/-- C2, witness: a concrete handshake on the empty registry followed by a
concrete continuation request bearing the minted identifier. -/
theorem c2_handshake_creates_session_witness :
    (handleMcp []
      "11111111-1111-4111-8111-111111111111"
      { method := "POST", accept := "application/json, text/event-stream"
        sessionHeader := "", bodyIsObject := true, bodyIsInitialize := true
        host := "localhost", origin := none }).registry
      = ["11111111-1111-4111-8111-111111111111"] ∧
    (handleMcp []
      "11111111-1111-4111-8111-111111111111"
      { method := "POST", accept := "application/json, text/event-stream"
        sessionHeader := "", bodyIsObject := true, bodyIsInitialize := true
        host := "localhost", origin := none }).outcome
      = McpOutcome.ok (some "11111111-1111-4111-8111-111111111111") ∧
    (handleMcp ["11111111-1111-4111-8111-111111111111"] "22222222-2222-4222-8222-222222222222"
      { method := "POST", accept := "application/json, text/event-stream"
        sessionHeader := "11111111-1111-4111-8111-111111111111"
        bodyIsObject := true, bodyIsInitialize := false
        host := "localhost", origin := none }).outcome = McpOutcome.ok none ∧
    (handleMcp ["11111111-1111-4111-8111-111111111111"] "22222222-2222-4222-8222-222222222222"
      { method := "POST", accept := "application/json, text/event-stream"
        sessionHeader := "11111111-1111-4111-8111-111111111111"
        bodyIsObject := true, bodyIsInitialize := false
        host := "localhost", origin := none }).registry
      = ["11111111-1111-4111-8111-111111111111"] :=
  c2_handshake_creates_session [] "11111111-1111-4111-8111-111111111111"
    "22222222-2222-4222-8222-222222222222" _ _ (by decide) (by decide) (by decide)
    (by decide) (by decide) (by decide) (by decide) rfl (by decide) (by decide)

/-- C3: a request whose Accept header does not include both
`application/json` and `text/event-stream` is rejected with the HTTP 406
"Not Acceptable" response before any session is created — the registry is
unchanged — including when the request is an initialization handshake. -/
theorem c3_not_acceptable (st : Registry) (freshId : String) (req : Request)
    (h : jsIncludes req.accept "application/json" = false ∨
         jsIncludes req.accept "text/event-stream" = false) :
    (handleMcp st freshId req).outcome = McpOutcome.notAcceptable ∧
    (handleMcp st freshId req).outcome.httpStatus = some 406 ∧
    (handleMcp st freshId req).registry = st := by
  unfold handleMcp
  rcases h with h | h <;> simp [h, McpOutcome.httpStatus]

/-- C3, witness: an initialization handshake declaring only
`application/json` is rejected with 406 and the registry stays empty. -/
theorem c3_not_acceptable_witness :
    (handleMcp [] "fresh-3"
      { method := "POST", accept := "application/json", sessionHeader := ""
        bodyIsObject := true, bodyIsInitialize := true
        host := "localhost", origin := none }).outcome = McpOutcome.notAcceptable ∧
    (handleMcp [] "fresh-3"
      { method := "POST", accept := "application/json", sessionHeader := ""
        bodyIsObject := true, bodyIsInitialize := true
        host := "localhost", origin := none }).outcome.httpStatus = some 406 ∧
    (handleMcp [] "fresh-3"
      { method := "POST", accept := "application/json", sessionHeader := ""
        bodyIsObject := true, bodyIsInitialize := true
        host := "localhost", origin := none }).registry = [] :=
  c3_not_acceptable [] "fresh-3" _ (Or.inr (by decide))

/-- A `DELETE` request for session `sess-d`: the probe input for claim
C4. -/
def c4Req : Request :=
  { method := "DELETE", accept := "application/json, text/event-stream"
    sessionHeader := "sess-d", bodyIsObject := false, bodyIsInitialize := false
    host := "localhost", origin := none }

/-- C4, counterexample: issuing `DELETE` twice for the same identifier is
safe, and the first call does remove the registry entry — but the second
call does not observe the "Unknown Session" response the claim describes:
it observes the caught-exception HTTP 500 internal-error envelope. -/
theorem c4_counterexample :
    (handleMcp ["sess-d"] "f4a" c4Req).registry = [] ∧
    (handleMcp ["sess-d"] "f4a" c4Req).outcome = McpOutcome.ok none ∧
    (handleMcp (handleMcp ["sess-d"] "f4a" c4Req).registry "f4b" c4Req).outcome
      ≠ McpOutcome.unknownSession ∧
    (handleMcp (handleMcp ["sess-d"] "f4a" c4Req).registry "f4b" c4Req).outcome
      = McpOutcome.errorCaught (catchBlock false) ∧
    (handleMcp (handleMcp ["sess-d"] "f4a" c4Req).registry "f4b" c4Req).registry
      = [] := by
  decide

/-- C4 (amended): teardown is idempotent up to the response the second
call observes — the first `DELETE` for a registered identifier removes
the registry entry, and a second `DELETE` for the same identifier leaves
the registry unchanged and is answered with the caught-exception HTTP 500
internal-error envelope (not a crash, and not a dedicated "Unknown
Session" response). -/
theorem c4_delete_idempotent (st : Registry) (f1 f2 : String) (req : Request)
    (ha : jsIncludes req.accept "application/json" = true)
    (hb : jsIncludes req.accept "text/event-stream" = true)
    (hm : req.method = "DELETE")
    (hs : req.sessionHeader ≠ "")
    (h1 : req.sessionHeader ∈ st)
    (h2 : req.sessionHeader ∉ st.erase req.sessionHeader) :
    (handleMcp st f1 req).registry = st.erase req.sessionHeader ∧
    (handleMcp st f1 req).outcome = McpOutcome.ok none ∧
    (handleMcp (st.erase req.sessionHeader) f2 req).outcome
      = McpOutcome.errorCaught (CatchAction.respond 500
          { code := -32603, message := "Internal server error" }) ∧
    (handleMcp (st.erase req.sessionHeader) f2 req).registry
      = st.erase req.sessionHeader := by
  have hinit : isInitRequest req = false := by
    unfold isInitRequest
    rw [hm]
    simp
  refine ⟨?_, ?_, ?_, ?_⟩
  · unfold handleMcp
    simp [ha, hb, hinit, hs, h1, hm, Registry.remove]
  · unfold handleMcp
    simp [ha, hb, hinit, hs, h1, hm]
  · unfold handleMcp
    simp [ha, hb, hinit, hs, h2, catchBlock]
  · unfold handleMcp
    simp [ha, hb, hinit, hs, h2]

/-- C4, witness: the amended statement evaluated on the concrete probe
input. -/
theorem c4_delete_idempotent_witness :
    (handleMcp ["sess-d"] "f4a" c4Req).registry
      = (["sess-d"] : Registry).erase c4Req.sessionHeader ∧
    (handleMcp ["sess-d"] "f4a" c4Req).outcome = McpOutcome.ok none ∧
    (handleMcp ((["sess-d"] : Registry).erase c4Req.sessionHeader) "f4b"
      c4Req).outcome
      = McpOutcome.errorCaught (CatchAction.respond 500
          { code := -32603, message := "Internal server error" }) ∧
    (handleMcp ((["sess-d"] : Registry).erase c4Req.sessionHeader) "f4b"
      c4Req).registry = (["sess-d"] : Registry).erase c4Req.sessionHeader :=
  c4_delete_idempotent ["sess-d"] "f4a" "f4b" c4Req (by decide) (by decide) rfl
    (by decide) (by decide) (by decide)

/-- An initialization handshake arriving with a disallowed Origin header
from a disallowed Host: the probe input for claim C5. -/
def c5Req : Request :=
  { method := "POST", accept := "application/json, text/event-stream"
    sessionHeader := "", bodyIsObject := true, bodyIsInitialize := true
    host := "evil.example", origin := some "https://evil.example" }

/-- C5, counterexample: with the configuration the server builds
(`enableDnsRebindingProtection: false`), a request whose host and origin
are on neither allow-list is not rejected — the transport accepts it and
the handshake mutates the registry, creating a session. -/
theorem c5_counterexample :
    (mkTransportConfig none none).allowedHosts.contains "evil.example" = false ∧
    (mkTransportConfig none none).allowedOrigins.contains "https://evil.example"
      = false ∧
    transportAcceptsRequest (mkTransportConfig none none) "evil.example"
      (some "https://evil.example") = true ∧
    (handleMcp [] "fresh-5" c5Req).registry = ["fresh-5"] := by
  decide

/-- C5 (amended): the origin and host allow-lists are derived
deterministically from the environment (the transport re-derives them at
each session creation from the same values), but the transport is
configured with DNS-rebinding protection disabled, so the host/origin
checks never reject a request, and the route handler itself never
consults the host or origin — its result is identical for any host and
origin values. -/
theorem c5_guard_disabled (hostsEnv originsEnv : Option String) (host : String)
    (origin : Option String) (st : Registry) (freshId : String) (req : Request) :
    (mkTransportConfig hostsEnv originsEnv).enableDnsRebindingProtection = false ∧
    transportAcceptsRequest (mkTransportConfig hostsEnv originsEnv) host origin
      = true ∧
    handleMcp st freshId { req with host := host, origin := origin }
      = handleMcp st freshId req :=
  ⟨rfl, rfl, rfl⟩

/-- A continuation request for the registered session `sess-c`: the probe
input for claim C6. -/
def c6Req : Request :=
  { method := "POST", accept := "application/json, text/event-stream"
    sessionHeader := "sess-c", bodyIsObject := true, bodyIsInitialize := false
    host := "localhost", origin := none }

/-- C6, counterexample: a continuation request serving an existing
session registers no close observer, so when that request's connection
closes abruptly the session record is not removed — it stays in the
registry, refuting the claim for requests other than the one that created
the session. -/
theorem c6_counterexample :
    (handleMcp ["sess-c"] "f6" c6Req).outcome = McpOutcome.ok none ∧
    (handleMcp ["sess-c"] "f6" c6Req).closeHandler = none ∧
    fireClose (handleMcp ["sess-c"] "f6" c6Req).registry
      (handleMcp ["sess-c"] "f6" c6Req).closeHandler = ["sess-c"] := by
  decide

/-- C6 (amended): only the request that creates a session registers a
close observer for it; closure of that request's connection triggers the
teardown (the observer closes the transport and the protocol engine and
removes the registry entry), while a continuation request registers no
observer, so its abrupt disconnection leaves the record registered. -/
theorem c6_close_teardown (st : Registry) (freshId : String) (req contReq : Request)
    (ha : jsIncludes req.accept "application/json" = true)
    (hb : jsIncludes req.accept "text/event-stream" = true)
    (hinit : isInitRequest req = true)
    (hfresh : freshId ∉ st)
    (hca : jsIncludes contReq.accept "application/json" = true)
    (hcb : jsIncludes contReq.accept "text/event-stream" = true)
    (hcs : contReq.sessionHeader ≠ "")
    (hcinit : isInitRequest contReq = false)
    (hcmem : contReq.sessionHeader ∈ st)
    (hcmeth : contReq.method ≠ "DELETE") :
    (handleMcp st freshId req).closeHandler = some freshId ∧
    fireClose (handleMcp st freshId req).registry
      (handleMcp st freshId req).closeHandler = st ∧
    (handleMcp st freshId contReq).closeHandler = none ∧
    fireClose (handleMcp st freshId contReq).registry
      (handleMcp st freshId contReq).closeHandler = st := by
  have hpost : req.method = "POST" := by
    unfold isInitRequest at hinit
    exact eq_of_beq (Bool.and_eq_true_iff.mp
      (Bool.and_eq_true_iff.mp hinit).1).1
  refine ⟨?_, ?_, ?_, ?_⟩
  · unfold handleMcp
    simp [ha, hb, hinit, hpost]
  · unfold handleMcp
    simp [ha, hb, hinit, hpost, Registry.insert, hfresh, fireClose,
      Registry.remove]
  · unfold handleMcp
    simp [hca, hcb, hcinit, hcs, hcmem, hcmeth]
  · unfold handleMcp
    simp [hca, hcb, hcinit, hcs, hcmem, hcmeth, fireClose]

/-- C6, witness: a concrete handshake whose connection closure removes
the created record, and a concrete continuation request whose closure
removes nothing. -/
theorem c6_close_teardown_witness :
    (handleMcp ["sess-c"] "f6c"
      { method := "POST", accept := "application/json, text/event-stream"
        sessionHeader := "", bodyIsObject := true, bodyIsInitialize := true
        host := "localhost", origin := none }).closeHandler = some "f6c" ∧
    fireClose (handleMcp ["sess-c"] "f6c"
      { method := "POST", accept := "application/json, text/event-stream"
        sessionHeader := "", bodyIsObject := true, bodyIsInitialize := true
        host := "localhost", origin := none }).registry
      (handleMcp ["sess-c"] "f6c"
      { method := "POST", accept := "application/json, text/event-stream"
        sessionHeader := "", bodyIsObject := true, bodyIsInitialize := true
        host := "localhost", origin := none }).closeHandler = ["sess-c"] ∧
    (handleMcp ["sess-c"] "f6c" c6Req).closeHandler = none ∧
    fireClose (handleMcp ["sess-c"] "f6c" c6Req).registry
      (handleMcp ["sess-c"] "f6c" c6Req).closeHandler = ["sess-c"] :=
  c6_close_teardown ["sess-c"] "f6c" _ c6Req (by decide) (by decide) (by decide)
    (by decide) (by decide) (by decide) (by decide) (by decide) (by decide)
    (by decide)

/-- C7, counterexample: when an uncaught exception occurs after the
response has begun (`headersSent` true), the catch block writes nothing
further — but it also does not terminate the connection, refuting that
part of the claim. -/
theorem c7_counterexample :
    catchBlock true = CatchAction.noWrite ∧
    catchBlock true ≠ CatchAction.terminateConnection := by
  decide

/-- C7 (amended): for an uncaught exception on the `/mcp` route, if no
bytes of the response have been sent the client receives the structured
JSON-RPC internal-error envelope (HTTP 500, code -32603); if the response
has already begun, no further envelope bytes are written — the catch
block takes no action at all, leaving the connection open rather than
terminating it. -/
theorem c7_internal_fault (headersSent : Bool) :
    (headersSent = false →
      catchBlock headersSent = CatchAction.respond 500
        { code := -32603, message := "Internal server error" }) ∧
    (headersSent = true → catchBlock headersSent = CatchAction.noWrite) := by
  constructor
  · intro h
    rw [h]
    decide
  · intro h
    rw [h]
    decide

/-- C7, witness: both branches of the amended statement evaluated. -/
theorem c7_internal_fault_witness :
    catchBlock false = CatchAction.respond 500
      { code := -32603, message := "Internal server error" } ∧
    catchBlock true = CatchAction.noWrite :=
  ⟨(c7_internal_fault false).1 rfl, (c7_internal_fault true).2 rfl⟩

/-- A structured in-envelope error result: `isError: true` carrying a
single text content item. -/
def ToolResult.isStructuredError (r : ToolResult) : Prop :=
  r.isError = true ∧ ∃ p, r.content = [ContentItem.text p]

/-- C8: every failing capability invocation — the requested work failed
(`TaskFailedError`) or the call could not be made at all (any other
rejection) — returns a structured error message inside the result
envelope (`isError: true`, one text item) for each of the three
generation tools, and the session registry is untouched by tool
execution: a continuation request on a registered session still
succeeds.  A rejected create call is handled for every `wait` value (the
rejection surfaces at `await createPromise` when `wait` is false and
through `waitForTaskOutput` when it is true, reaching the same catch); a
rejected `waitForTaskOutput` exists only when `wait` is true, since the
handler does not await it otherwise. -/
theorem c8_capability_failure (a1 : TextToImageArgs) (a2 : ImageToVideoArgs)
    (a3 : VideoUpscaleArgs) (e : JsError) (t : Task) (w : Awaited TaskResult)
    (st : Registry) (freshId : String) (req : Request)
    (ha : jsIncludes req.accept "application/json" = true)
    (hb : jsIncludes req.accept "text/event-stream" = true)
    (hs : req.sessionHeader ≠ "") (hinit : isInitRequest req = false)
    (hmem : req.sessionHeader ∈ st) (hmeth : req.method ≠ "DELETE") :
    (text_to_image_handler a1 (Awaited.threw e) w).isStructuredError ∧
    (a1.wait = true →
      (text_to_image_handler a1 (Awaited.ok t) (Awaited.threw e)).isStructuredError) ∧
    (image_to_video_handler a2 (Awaited.threw e) w).isStructuredError ∧
    (a2.wait = true →
      (image_to_video_handler a2 (Awaited.ok t) (Awaited.threw e)).isStructuredError) ∧
    (video_upscale_handler a3 (Awaited.threw e) w).isStructuredError ∧
    (a3.wait = true →
      (video_upscale_handler a3 (Awaited.ok t) (Awaited.threw e)).isStructuredError) ∧
    (handleMcp st freshId req).outcome = McpOutcome.ok none ∧
    (handleMcp st freshId req).registry = st := by
  have hcatch : ∀ e0 : JsError, (toolCatch e0).isStructuredError := by
    intro e0
    cases e0 <;> exact ⟨rfl, _, rfl⟩
  refine ⟨hcatch e, ?_, hcatch e, ?_, hcatch e, ?_, ?_, ?_⟩
  · intro h1
    simp only [text_to_image_handler, h1, Bool.not_true]
    exact hcatch e
  · intro h2
    simp only [image_to_video_handler, h2, Bool.not_true]
    exact hcatch e
  · intro h3
    simp only [video_upscale_handler, h3, Bool.not_true]
    exact hcatch e
  · unfold handleMcp
    simp [ha, hb, hs, hinit, hmem, hmeth]
  · unfold handleMcp
    simp [ha, hb, hs, hinit, hmem, hmeth]

/-- Text-to-image arguments with `wait: true`: probe input for C8. -/
def c8Args1 : TextToImageArgs :=
  { promptText := "p", model := "gen4_image", ratio := none, seed := none
    wait := true, timeoutMs := none }

/-- Image-to-video arguments with `wait: true`: probe input for C8. -/
def c8Args2 : ImageToVideoArgs :=
  { promptImage := "https://img.example/a.png", promptText := "p"
    model := "gen4_turbo", ratio := none, wait := true, timeoutMs := none }

/-- Video-upscale arguments with `wait: true`: probe input for C8. -/
def c8Args3 : VideoUpscaleArgs :=
  { video := "https://img.example/a.mp4", model := "gen4_turbo", wait := true
    timeoutMs := none }

/-- A continuation request on registered session `sess-8`: probe input
for C8. -/
def c8Req : Request :=
  { method := "POST", accept := "application/json, text/event-stream"
    sessionHeader := "sess-8", bodyIsObject := true, bodyIsInitialize := false
    host := "localhost", origin := none }

/-- Text-to-image arguments with `wait: false`, for the create-rejection
case of a non-waiting invocation: probe input for C8. -/
def c8NoWaitArgs : TextToImageArgs :=
  { promptText := "p", model := "gen4_image", ratio := none, seed := none
    wait := false, timeoutMs := none }

/-- C8, witness: the statement evaluated on a concrete rejection
(`Error("boom")`) for all three tools — for a rejected create call both
with `wait: true` and with `wait: false` — with the registry
untouched. -/
theorem c8_capability_failure_witness :
    (text_to_image_handler c8Args1 (Awaited.threw (JsError.other "boom"))
      (Awaited.ok ⟨"t8", "SUCCEEDED", some []⟩)).isStructuredError ∧
    (text_to_image_handler c8NoWaitArgs (Awaited.threw (JsError.other "boom"))
      (Awaited.ok ⟨"t8", "SUCCEEDED", some []⟩)).isStructuredError ∧
    (text_to_image_handler c8Args1 (Awaited.ok ⟨"t8"⟩)
      (Awaited.threw (JsError.other "boom"))).isStructuredError ∧
    (image_to_video_handler c8Args2 (Awaited.threw (JsError.other "boom"))
      (Awaited.ok ⟨"t8", "SUCCEEDED", some []⟩)).isStructuredError ∧
    (image_to_video_handler c8Args2 (Awaited.ok ⟨"t8"⟩)
      (Awaited.threw (JsError.other "boom"))).isStructuredError ∧
    (video_upscale_handler c8Args3 (Awaited.threw (JsError.other "boom"))
      (Awaited.ok ⟨"t8", "SUCCEEDED", some []⟩)).isStructuredError ∧
    (video_upscale_handler c8Args3 (Awaited.ok ⟨"t8"⟩)
      (Awaited.threw (JsError.other "boom"))).isStructuredError ∧
    (handleMcp ["sess-8"] "f8" c8Req).outcome = McpOutcome.ok none ∧
    (handleMcp ["sess-8"] "f8" c8Req).registry = ["sess-8"] := by
  have h := c8_capability_failure c8Args1 c8Args2 c8Args3 (JsError.other "boom")
    ⟨"t8"⟩ (Awaited.ok ⟨"t8", "SUCCEEDED", some []⟩) ["sess-8"] "f8" c8Req
    (by decide) (by decide) (by decide) (by decide) (by decide) (by decide)
  have hnw := c8_capability_failure c8NoWaitArgs c8Args2 c8Args3
    (JsError.other "boom") ⟨"t8"⟩ (Awaited.ok ⟨"t8", "SUCCEEDED", some []⟩)
    ["sess-8"] "f8" c8Req
    (by decide) (by decide) (by decide) (by decide) (by decide) (by decide)
  exact ⟨h.1, hnw.1, h.2.1 rfl, h.2.2.1, h.2.2.2.1 rfl, h.2.2.2.2.1,
    h.2.2.2.2.2.1 rfl, h.2.2.2.2.2.2.1, h.2.2.2.2.2.2.2⟩

/-- C9: for each generation tool invoked with `wait: false` whose create
call succeeds, the result is exactly one text content item — the
stringified object with the created task's id and the literal status
`"PENDING"` — with no resource links; the `waited` outcome is universally
quantified on the left only, so the result does not depend on the task's
eventual completion. -/
theorem c9_no_wait_pending (a1 : TextToImageArgs) (a2 : ImageToVideoArgs)
    (a3 : VideoUpscaleArgs) (t : Task) (w1 w2 w3 : Awaited TaskResult)
    (h1 : a1.wait = false) (h2 : a2.wait = false) (h3 : a3.wait = false) :
    text_to_image_handler a1 (Awaited.ok t) w1
      = { content := [ContentItem.text (TextPayload.stringified
            (Json.obj [("taskId", Json.str t.id), ("status", Json.str "PENDING")]))]
          isError := false } ∧
    image_to_video_handler a2 (Awaited.ok t) w2
      = { content := [ContentItem.text (TextPayload.stringified
            (Json.obj [("taskId", Json.str t.id), ("status", Json.str "PENDING")]))]
          isError := false } ∧
    video_upscale_handler a3 (Awaited.ok t) w3
      = { content := [ContentItem.text (TextPayload.stringified
            (Json.obj [("taskId", Json.str t.id), ("status", Json.str "PENDING")]))]
          isError := false } := by
  refine ⟨?_, ?_, ?_⟩
  · simp [text_to_image_handler, h1]
  · simp [image_to_video_handler, h2]
  · simp [video_upscale_handler, h3]

/-- Text-to-image arguments with `wait: false`: probe input for C9. -/
def c9Args1 : TextToImageArgs :=
  { promptText := "p", model := "gen4_image", ratio := none, seed := none
    wait := false, timeoutMs := none }

/-- Image-to-video arguments with `wait: false`: probe input for C9. -/
def c9Args2 : ImageToVideoArgs :=
  { promptImage := "https://img.example/a.png", promptText := "p"
    model := "gen4_turbo", ratio := none, wait := false, timeoutMs := none }

/-- Video-upscale arguments with `wait: false`: probe input for C9. -/
def c9Args3 : VideoUpscaleArgs :=
  { video := "https://img.example/a.mp4", model := "gen4_turbo", wait := false
    timeoutMs := none }

/-- C9, witness: concrete `wait: false` calls; the `waited` outcome
passed in carries a completed task with outputs, and the result still
only reports the pending task id. -/
theorem c9_no_wait_pending_witness :
    text_to_image_handler c9Args1 (Awaited.ok ⟨"task-9"⟩)
      (Awaited.ok ⟨"task-9", "SUCCEEDED", some ["https://r.example/o.png"]⟩)
      = { content := [ContentItem.text (TextPayload.stringified
            (Json.obj [("taskId", Json.str "task-9"),
              ("status", Json.str "PENDING")]))]
          isError := false } ∧
    image_to_video_handler c9Args2 (Awaited.ok ⟨"task-9"⟩)
      (Awaited.ok ⟨"task-9", "SUCCEEDED", some ["https://r.example/o.png"]⟩)
      = { content := [ContentItem.text (TextPayload.stringified
            (Json.obj [("taskId", Json.str "task-9"),
              ("status", Json.str "PENDING")]))]
          isError := false } ∧
    video_upscale_handler c9Args3 (Awaited.ok ⟨"task-9"⟩)
      (Awaited.ok ⟨"task-9", "SUCCEEDED", some ["https://r.example/o.png"]⟩)
      = { content := [ContentItem.text (TextPayload.stringified
            (Json.obj [("taskId", Json.str "task-9"),
              ("status", Json.str "PENDING")]))]
          isError := false } :=
  c9_no_wait_pending c9Args1 c9Args2 c9Args3 ⟨"task-9"⟩
    (Awaited.ok ⟨"task-9", "SUCCEEDED", some ["https://r.example/o.png"]⟩)
    (Awaited.ok ⟨"task-9", "SUCCEEDED", some ["https://r.example/o.png"]⟩)
    (Awaited.ok ⟨"task-9", "SUCCEEDED", some ["https://r.example/o.png"]⟩)
    rfl rfl rfl

/-- C10: for a completed task with output URL list `urls`, the tool
result's `resource_link` entries are exactly `toResourceLinks urls` — one
entry per URL, in list order, the i-th carrying the i-th URL and the name
`output_` followed by the 1-based index left-padded with zeros to two
digits. -/
theorem c10_resource_links (args : TextToImageArgs) (t : Task) (res : TaskResult)
    (urls : List String) (hw : args.wait = true) (hout : res.output = some urls) :
    ((text_to_image_handler args (Awaited.ok t) (Awaited.ok res)).content.filter
      ContentItem.isResourceLink) = toResourceLinks urls ∧
    (toResourceLinks urls).length = urls.length ∧
    (∀ i (h : i < urls.length) (h2 : i < (toResourceLinks urls).length),
      (toResourceLinks urls).get ⟨i, h2⟩
        = ContentItem.resource_link (urls.get ⟨i, h⟩)
            ("output_" ++ padStart (toString (i + 1)) 2 '0')) := by
  have hfil : ∀ l : List (Nat × String),
      (l.map (fun p => ContentItem.resource_link p.2
        ("output_" ++ padStart (toString (p.1 + 1)) 2 '0'))).filter
        ContentItem.isResourceLink
      = l.map (fun p => ContentItem.resource_link p.2
        ("output_" ++ padStart (toString (p.1 + 1)) 2 '0')) := by
    intro l
    induction l with
    | nil => rfl
    | cons x xs ih => simp [List.filter, ContentItem.isResourceLink, ih]
  refine ⟨?_, ?_, ?_⟩
  · rcases urls with _ | ⟨u, us⟩
    · simp [text_to_image_handler, hw, hout, toResourceLinks,
        ContentItem.isResourceLink]
    · simp [text_to_image_handler, hw, hout, toResourceLinks,
        List.filter_append, List.filter, ContentItem.isResourceLink, hfil,
        List.enum_cons]
  · simp [toResourceLinks]
  · intro i h h2
    simp [toResourceLinks, List.get_eq_getElem, List.getElem_map,
      List.getElem_enum]

/-- Text-to-image arguments with `wait: true`: probe input for C10. -/
def c10Args : TextToImageArgs :=
  { promptText := "p", model := "gen4_image", ratio := none, seed := none
    wait := true, timeoutMs := none }

/-- A completed task result with two output URLs: probe input for C10. -/
def c10Res : TaskResult :=
  { id := "task-10", status := "SUCCEEDED"
    output := some ["https://r.example/1.png", "https://r.example/2.png"] }

/-- C10, witness: two output URLs yield the two resource links
`output_01` and `output_02`, in order. -/
theorem c10_resource_links_witness :
    ((text_to_image_handler c10Args (Awaited.ok ⟨"task-10"⟩)
      (Awaited.ok c10Res)).content.filter ContentItem.isResourceLink)
      = toResourceLinks ["https://r.example/1.png", "https://r.example/2.png"] ∧
    (toResourceLinks ["https://r.example/1.png", "https://r.example/2.png"]).length
      = 2 ∧
    (toResourceLinks
      ["https://r.example/1.png", "https://r.example/2.png"]).get ⟨1, by decide⟩
      = ContentItem.resource_link "https://r.example/2.png" "output_02" := by
  have h := c10_resource_links c10Args ⟨"task-10"⟩ c10Res
    ["https://r.example/1.png", "https://r.example/2.png"] rfl rfl
  refine ⟨h.1, h.2.1, ?_⟩
  have h3 := h.2.2 1 (by decide) (by decide)
  exact h3.trans (by rfl)

end RunwayGen
